import Mathlib

/-!
Shallow embedding of the client-side tabular data pipeline of the
pemon-information-table repository: column comparators, conditional
cell-class rules, the style-toggle state machine, the pagination-bar
augmenter, and the data-fetch completion handler, as implemented in
`src/src/app/app.component.ts` (AppComponent) and `src/unnamed/part_000`
(DemonsGridComponent).
-/

namespace Pemon

/-! ### Vocabulary and rank-table comparators

Source: the `difficulty` and `rating` column comparators in `colDefs`
(`app.component.ts` lines 245-248 and 261-264; `part_000` lines 278-281
and 292-295).  Both compute `order.indexOf(a) - order.indexOf(b)` over a
fixed vocabulary; JavaScript `indexOf` yields `-1` for a value not in the
array. -/

/-- The fixed difficulty vocabulary, in rank order, exactly as the source
writes it. -/
def difficultyOrder : List String :=
  ["Easy Demon", "Medium Demon", "Hard Demon", "Insane Demon", "Extreme Demon"]

/-- The fixed rating vocabulary, in rank order, exactly as the source
writes it. -/
def ratingOrder : List String :=
  ["Rated", "Featured", "Epic", "Legendary", "Mythic"]

/-- JavaScript `Array.prototype.indexOf`: the index of the first exact
(case-sensitive) occurrence, `-1` when absent. -/
def jsIndexOf (l : List String) (s : String) : Int :=
  match l.findIdx? (fun x => x == s) with
  | some i => (i : Int)
  | none => -1

/-- The `difficulty` column comparator:
`order.indexOf(valueA) - order.indexOf(valueB)`. -/
def difficultyComparator (a b : String) : Int :=
  jsIndexOf difficultyOrder a - jsIndexOf difficultyOrder b

/-- The `rating` column comparator:
`order.indexOf(valueA) - order.indexOf(valueB)`. -/
def ratingComparator (a b : String) : Int :=
  jsIndexOf ratingOrder a - jsIndexOf ratingOrder b

/-! ### The songID comparator

Source: the `songID` column comparator (`app.component.ts` lines 332-339,
`part_000` lines 327-333).  A songID cell value is either a number or a
string; `!isNaN(v)` decides "numeric" (for a string, whether JavaScript
`Number(v)` is not NaN: optionally signed digits, and the empty /
whitespace-only string coerces to `0`). -/

/-- A `songID` cell value: an integer, or a placeholder string. -/
inductive SongVal where
  | num (n : Int)
  | str (s : String)
deriving DecidableEq, Repr

/-- Decimal value of a digit list (used by the `Number(s)` model below). -/
def digitsToNat (cs : List Char) : Nat :=
  cs.foldl (fun n c => 10 * n + (c.toNat - 48)) 0

/-- JavaScript `Number(s)` for an (integer-valued) string, `none` when the
result would be NaN: surrounding whitespace is ignored, then an optional
sign followed by digits; the empty or whitespace-only string coerces
to `0`. -/
def jsStringToNumber (s : String) : Option Int :=
  let cs := ((s.toList.dropWhile Char.isWhitespace).reverse.dropWhile
    Char.isWhitespace).reverse
  if cs = [] then some 0
  else
    let (sign, digits) : Int × List Char :=
      match cs with
      | '-' :: rest => (-1, rest)
      | '+' :: rest => (1, rest)
      | _ => (1, cs)
    if digits ≠ [] ∧ digits.all Char.isDigit then
      some (sign * digitsToNat digits)
    else none

/-- JavaScript `!isNaN(v)` on a songID cell value: every number is
numeric; a string is numeric when `Number(v)` is not NaN. -/
def SongVal.isNumeric : SongVal → Bool
  | .num _ => true
  | .str s => (jsStringToNumber s).isSome

/-- The numeric coercion applied by `valueA - valueB` when both operands
passed the `!isNaN` test. -/
def SongVal.toNumber : SongVal → Int
  | .num n => n
  | .str s => (jsStringToNumber s).getD 0

/-- JavaScript `String(v)`, as applied before `localeCompare` in the
fallback branch. -/
def SongVal.toJsString : SongVal → String
  | .num n => toString n
  | .str s => s

/-- Lexicographic three-way comparison of character lists by code point. -/
def charListCompare : List Char → List Char → Int
  | [], [] => 0
  | [], _ :: _ => -1
  | _ :: _, [] => 1
  | a :: as, b :: bs =>
    if a.toNat < b.toNat then -1
    else if b.toNat < a.toNat then 1
    else charListCompare as bs

/-- `String.prototype.localeCompare`: negative / zero / positive according
to string order (code-point order; the placeholders in the data are
ASCII, where locale order and code-point order agree). -/
def localeCompare (a b : String) : Int :=
  charListCompare a.toList b.toList

/-- The `songID` column comparator, translated clause by clause:
both numeric → numeric difference; one numeric → the numeric one first;
neither → `String(a).localeCompare(String(b))`. -/
def songIDComparator (a b : SongVal) : Int :=
  if a.isNumeric && b.isNumeric then a.toNumber - b.toNumber
  else if a.isNumeric then -1
  else if b.isNumeric then 1
  else localeCompare a.toJsString b.toJsString

/-! ### formatTime

Source: `AppComponent.formatTime` (`app.component.ts` lines 184-196).
Seconds are a non-negative integer; `Math.floor` on non-negative operands
is Nat division. -/

/-- Function `formatTime(seconds)`: compact `h/m/s` rendering. -/
def formatTime (seconds : Nat) : String :=
  let hours := seconds / 3600
  let minutes := (seconds % 3600) / 60
  let secs := seconds % 60
  if hours > 0 then
    toString hours ++ "h " ++ toString minutes ++ "m " ++ toString secs ++ "s"
  else if minutes > 0 then
    toString minutes ++ "m " ++ toString secs ++ "s"
  else
    toString secs ++ "s"

/-! ### Rows and conditional cell-class rules

Source: the `cellClassRules` maps of the `difficulty` and `rating`
columns (`part_000` lines 271-277 and 286-291; `app.component.ts` lines
238-244 and 255-260) and the rule sets reinstalled by
`updateColumnStyles`.  The rule predicates read only `p.data.difficulty`,
`p.data.rating`; the row-style callback additionally reads `p.data.ID`,
so the row model carries those fields. -/

/-- The fields of a level record that the class rules and the row-style
callback read. -/
structure Row where
  difficulty : String
  rating : String
  ID : Int
deriving Repr, DecidableEq

/-- A `cellClassRules` object: class name → predicate over the row. -/
abbrev CellClassRules := List (String × (Row → Bool))

/-- The difficulty column's class rules, one per vocabulary entry. -/
def difficultyClassRules : CellClassRules :=
  [("easy", fun p => p.difficulty == "Easy Demon"),
   ("medium", fun p => p.difficulty == "Medium Demon"),
   ("hard", fun p => p.difficulty == "Hard Demon"),
   ("insane", fun p => p.difficulty == "Insane Demon"),
   ("extreme", fun p => p.difficulty == "Extreme Demon")]

/-- The rating column's class rules.  Note: there are four, one each for
Featured, Epic, Legendary and Mythic — the vocabulary value "Rated" has
no associated class rule in the source. -/
def ratingClassRules : CellClassRules :=
  [("featured", fun p => p.rating == "Featured"),
   ("epic", fun p => p.rating == "Epic"),
   ("legendary", fun p => p.rating == "Legendary"),
   ("mythic", fun p => p.rating == "Mythic")]

/-- A column definition, restricted to the parts the claims are about:
the field key and the (mutable) conditional class-rule set.  `none`
models a column definition object with no `cellClassRules` property;
`some []` models `cellClassRules = \x7b\x7d`. -/
structure ColDef where
  field : String
  cellClassRules : Option CellClassRules := none

/-- The static `DemonsGridComponent.colDefs` (`part_000` lines 253-335): thirteen
columns in source order; only `difficulty` and `rating` carry class
rules. -/
def initialColDefs : List ColDef :=
  [{ field := "number" },
   { field := "level" },
   { field := "creator" },
   { field := "ID" },
   { field := "difficulty", cellClassRules := some difficultyClassRules },
   { field := "rating", cellClassRules := some ratingClassRules },
   { field := "userCoins" },
   { field := "length" },
   { field := "objects" },
   { field := "twop" },
   { field := "primarySong" },
   { field := "artist" },
   { field := "songID" }]

/-- The class names a rule set activates on a given row (the grid applies
a class exactly when its predicate returns true). -/
def activeClasses (rules : Option CellClassRules) (r : Row) : List String :=
  (rules.getD []).filterMap fun rule => if rule.2 r then some rule.1 else none

/-! ### The style-toggle state machine

Source: `DemonsGridComponent.setRowStyle`, `updateColumnStyles` and
`applyColDefsUpdate` (`part_000` lines 95-110 and 151-183).  Grid-API
calls are recorded as an ordered command trace. -/

/-- Method `DemonsGridComponent.updateColumnStyles`: with style mode on, every
column's rules are cleared to `\x7b\x7d`; with it off, the difficulty and
rating rule sets are reinstalled and every other column is left as it
is. -/
def updateColumnStyles (enableRowStyle : Bool) (cols : List ColDef) : List ColDef :=
  cols.map fun col =>
    if enableRowStyle then { col with cellClassRules := some [] }
    else if col.field == "difficulty" then
      { col with cellClassRules := some difficultyClassRules }
    else if col.field == "rating" then
      { col with cellClassRules := some ratingClassRules }
    else col

/-- A call into the grid API. -/
inductive GridCmd where
  | applyColDefs (cols : List ColDef)
  | redrawRows

/-- The component state the style toggle touches: the boolean mode, the
grid-API handle (present or not), the column definitions, the trace of
grid-API calls, and the injected DOM toggle's checked attribute (`none`
while the toggle is not in the document). -/
structure GridState where
  enableRowStyle : Bool
  hasGridApi : Bool
  colDefs : List ColDef
  gridCommands : List GridCmd
  toggleChecked : Option Bool

/-- The component's state at construction: style mode off, no grid API
yet, the static `colDefs`, no grid calls, no injected toggle. -/
def initialGridState : GridState :=
  { enableRowStyle := false, hasGridApi := false, colDefs := initialColDefs,
    gridCommands := [], toggleChecked := none }

/-- Method `DemonsGridComponent.applyColDefsUpdate`: a no-op without a grid API;
otherwise pushes the current column definitions to the grid (whichever
of `setColumnDefs` / `setGridOption` / refresh the API offers). -/
def applyColDefsUpdate (st : GridState) : GridState :=
  if st.hasGridApi then
    { st with gridCommands := st.gridCommands ++ [GridCmd.applyColDefs st.colDefs] }
  else st

/-- Method `DemonsGridComponent.setRowStyle`: early-out when the flag equals the
current state; otherwise update the state, rewrite the column rules,
push the definitions, and request a row redraw (`gridApi?.redrawRows()`
is conditional on the API handle). -/
def setRowStyle (st : GridState) (enabled : Bool) : GridState :=
  if st.enableRowStyle == enabled then st
  else
    let st1 := { st with enableRowStyle := enabled }
    let st2 := { st1 with colDefs := updateColumnStyles st1.enableRowStyle st1.colDefs }
    let st3 := applyColDefsUpdate st2
    if st3.hasGridApi then
      { st3 with gridCommands := st3.gridCommands ++ [GridCmd.redrawRows] }
    else st3

/-- The toggle-handling tail of `DemonsGridComponent.updateCustomPaginationText`
(`part_000` lines 200-223): the row-style toggle is created when absent
and its checked attribute is then set to `enableRowStyle` (the `onchange`
wiring is modelled by `demonsToggleChange` below). -/
def mountRowStyleToggleSync (st : GridState) : GridState :=
  { st with toggleChecked := some st.enableRowStyle }

/-- Method `DemonsGridComponent.onGridReady` (`part_000` lines 123-132): store
the API handle, schedule the pagination mount, and synchronize the
toggle's checked attribute immediately when the toggle already exists;
the deferred mount body then runs and synchronizes again. -/
def demonsOnGridReady (st : GridState) : GridState :=
  let st1 := { st with hasGridApi := true }
  let st2 :=
    match st1.toggleChecked with
    | some _ => { st1 with toggleChecked := some st1.enableRowStyle }
    | none => st1
  mountRowStyleToggleSync st2

/-- The row-style toggle's `onchange` handler (`part_000` lines 219-222):
the user's click has set the DOM checkbox to `c`; the handler calls
`setRowStyle(input.checked)`. -/
def demonsToggleChange (st : GridState) (c : Bool) : GridState :=
  setRowStyle { st with toggleChecked := some c } c

/-! ### The AppComponent variant of the toggle wiring

Source: `AppComponent.updateCustomPaginationText` and
`AppComponent.toggleRowStyle` (`app.component.ts` lines 64-106 and
145-181).  Only the boolean state and the DOM toggle's checked attribute
are modelled, which is all claim C3 speaks about. -/

/-- The AppComponent state relevant to toggle synchronization. -/
structure AppState where
  enableRowStyle : Bool
  hasPanel : Bool
  toggleChecked : Option Bool
deriving Repr, DecidableEq

/-- The toggle-injection part of `AppComponent.updateCustomPaginationText`:
when the pagination panel exists and no toggle container does, the
injected HTML is `<input type="checkbox" id="rowStyleToggle" checked>`,
so the new toggle's checked attribute is true; `enableRowStyle` is not
touched. -/
def appMountToggle (st : AppState) : AppState :=
  if st.hasPanel then
    match st.toggleChecked with
    | some _ => st
    | none => { st with toggleChecked := some true }
  else st

/-- Method `AppComponent.toggleRowStyle`: negates `enableRowStyle` (the rest of
the method rewrites column rules and redraws; it never writes the DOM
toggle's checked attribute). -/
def appToggleRowStyle (st : AppState) : AppState :=
  { st with enableRowStyle := !st.enableRowStyle }

/-- The AppComponent change listener (`app.component.ts` lines 173-177):
the user's click has set the DOM checkbox to `c`; the listener assigns
`enableRowStyle = inputElement.checked` and then calls
`toggleRowStyle()`, which negates it again. -/
def appRowStyleChange (st : AppState) (c : Bool) : AppState :=
  appToggleRowStyle { st with toggleChecked := some c, enableRowStyle := c }

/-! ### The data-fetch completion handler

Source: `DemonsGridComponent.ngOnInit` (`part_000` lines 112-121; the
`AppComponent` version at `app.component.ts` lines 51-61 is the same
shape): the subscription's `next` callback replaces `rawData` and
`rowData` wholesale, the `error` callback only logs. -/

/-- The component state the fetch callbacks touch. -/
structure FetchState where
  rawData : List Row
  rowData : List Row
  errorLog : List String

/-- Delivery of the fetch result to the subscription callbacks.  `ok`
runs the `next` callback; `error` runs the `error` callback, which only
reports to the console. -/
def fetchComplete (st : FetchState) (result : Except String (List Row)) : FetchState :=
  match result with
  | Except.ok data => { st with rawData := data, rowData := data }
  | Except.error e =>
      { st with errorLog := st.errorLog ++ ["Error loading demons.json: " ++ e] }

/-! ### The pagination-bar augmenter as a DOM transformation

Source: `DemonsGridComponent.updateCustomPaginationText` (`part_000`
lines 185-250).  The document is modelled as the multiset of injected
element identifiers plus a flag for the pagination panel's presence;
each injection block is guarded by a `getElementById` lookup. -/

/-- A document: whether `.ag-paging-panel` matches, and the ids of the
elements present (with multiplicity). -/
structure Doc where
  hasPaginationPanel : Bool
  elems : List String
deriving Repr, DecidableEq

/-- One guarded injection block: when no element with id `guardId`
exists, append the freshly created elements; otherwise leave the
document alone. -/
def addIfAbsent (d : Doc) (guardId : String) (newElems : List String) : Doc :=
  if d.elems.contains guardId then d else { d with elems := d.elems ++ newElems }

/-- The element-injection effect of `updateCustomPaginationText` (once
its timer fires): nothing without a pagination panel; otherwise the
credit label (guard `customPaginationText`), the row-style switch (guard
`rowStyleToggle`, creating `toggleContainer` with the checkbox inside)
and the dataset switch (guard `datasetToggle`, creating `datasetSwitch`
with the checkbox inside), each only when its guard id is absent. -/
def updateCustomPaginationText (d : Doc) : Doc :=
  if d.hasPaginationPanel then
    addIfAbsent (addIfAbsent (addIfAbsent d
      "customPaginationText" ["customPaginationText"])
      "rowStyleToggle" ["toggleContainer", "rowStyleToggle"])
      "datasetToggle" ["datasetSwitch", "datasetToggle"]
  else d



/-! ## Helper lemmas -/

/-- An `indexOf` lookup for a value not in the array yields `-1`. -/
lemma jsIndexOf_of_not_mem (l : List String) (a : String) (h : a ∉ l) :
    jsIndexOf l a = -1 := by
  unfold jsIndexOf
  have hn : l.findIdx? (fun x => x == a) = none := by
    rw [List.findIdx?_eq_none_iff]
    intro x hx
    simp only [beq_eq_false_iff_ne, ne_eq]
    rintro rfl
    exact h hx
  rw [hn]

/-- An `indexOf` lookup for a value in the array is non-negative. -/
lemma jsIndexOf_nonneg_of_mem (l : List String) (b : String) (h : b ∈ l) :
    0 ≤ jsIndexOf l b := by
  unfold jsIndexOf
  cases hf : l.findIdx? (fun x => x == b) with
  | some i => simp
  | none =>
    rw [List.findIdx?_eq_none_iff] at hf
    have := hf b h
    simp at this

/-- The five difficulty rules activate exactly one class for a vocabulary
difficulty and none otherwise. -/
lemma activeClasses_difficulty_count (r : Row) :
    (activeClasses (some difficultyClassRules) r).length =
      if r.difficulty ∈ difficultyOrder then 1 else 0 := by
  by_cases h1 : r.difficulty = "Easy Demon" <;>
  by_cases h2 : r.difficulty = "Medium Demon" <;>
  by_cases h3 : r.difficulty = "Hard Demon" <;>
  by_cases h4 : r.difficulty = "Insane Demon" <;>
  by_cases h5 : r.difficulty = "Extreme Demon" <;>
  simp_all [activeClasses, difficultyClassRules, difficultyOrder]

/-- The four rating rules activate exactly one class for a rating among
Featured, Epic, Legendary, Mythic and none otherwise ("Rated" included). -/
lemma activeClasses_rating_count (r : Row) :
    (activeClasses (some ratingClassRules) r).length =
      if r.rating ∈ ["Featured", "Epic", "Legendary", "Mythic"] then 1 else 0 := by
  by_cases h1 : r.rating = "Featured" <;>
  by_cases h2 : r.rating = "Epic" <;>
  by_cases h3 : r.rating = "Legendary" <;>
  by_cases h4 : r.rating = "Mythic" <;>
  simp_all [activeClasses, ratingClassRules]

/-- A guarded injection never changes the pagination-panel flag. -/
lemma addIfAbsent_panel (d : Doc) (g : String) (nl : List String) :
    (addIfAbsent d g nl).hasPaginationPanel = d.hasPaginationPanel := by
  unfold addIfAbsent; split <;> rfl

/-- A guarded injection preserves every element already present. -/
lemma contains_addIfAbsent_mono (d : Doc) (g : String) (nl : List String) (x : String)
    (h : d.elems.contains x = true) : (addIfAbsent d g nl).elems.contains x = true := by
  unfold addIfAbsent; split
  · exact h
  · simp_all

/-- After a guarded injection whose payload carries the guard id, the
guard id is present. -/
lemma contains_addIfAbsent_self (d : Doc) (g : String) (nl : List String)
    (h : g ∈ nl) : (addIfAbsent d g nl).elems.contains g = true := by
  unfold addIfAbsent; split
  · assumption
  · simp_all

/-- A guarded injection whose guard id is already present is a no-op. -/
lemma addIfAbsent_of_contains (d : Doc) (g : String) (nl : List String)
    (h : d.elems.contains g = true) : addIfAbsent d g nl = d := by
  unfold addIfAbsent; rw [if_pos h]

/-- A guarded injection adds at most the payload's copies of any id. -/
lemma count_addIfAbsent_le (d : Doc) (g : String) (nl : List String) (i : String) :
    (addIfAbsent d g nl).elems.count i ≤ d.elems.count i + nl.count i := by
  unfold addIfAbsent; split
  · simp
  · simp [List.count_append]

/-- The pagination augmenter is idempotent on documents: a second
invocation finds every guard id present and changes nothing. -/
lemma augment_idem (d : Doc) :
    updateCustomPaginationText (updateCustomPaginationText d) = updateCustomPaginationText d := by
  unfold updateCustomPaginationText
  by_cases hp : d.hasPaginationPanel
  · simp only [hp, if_pos]
    set d1 := addIfAbsent d "customPaginationText" ["customPaginationText"] with hd1
    set d2 := addIfAbsent d1 "rowStyleToggle" ["toggleContainer", "rowStyleToggle"] with hd2
    set d3 := addIfAbsent d2 "datasetToggle" ["datasetSwitch", "datasetToggle"] with hd3
    have hpanel : d3.hasPaginationPanel = true := by
      rw [hd3, addIfAbsent_panel, hd2, addIfAbsent_panel, hd1, addIfAbsent_panel]; exact hp
    have h1 : d3.elems.contains "customPaginationText" = true := by
      apply contains_addIfAbsent_mono; apply contains_addIfAbsent_mono
      apply contains_addIfAbsent_self; simp
    have h2 : d3.elems.contains "rowStyleToggle" = true := by
      apply contains_addIfAbsent_mono
      apply contains_addIfAbsent_self; simp
    have h3 : d3.elems.contains "datasetToggle" = true := by
      apply contains_addIfAbsent_self; simp
    rw [if_pos hpanel]
    rw [addIfAbsent_of_contains _ _ _ h1]
    rw [addIfAbsent_of_contains _ _ _ h2]
    rw [addIfAbsent_of_contains _ _ _ h3]
  · simp only [Bool.not_eq_true] at hp
    simp [hp]

/-- Supporting fact (not itself a claim): the DemonsGridComponent paths do
keep `enableRowStyle` and the DOM toggle's checked attribute equal — after
`onGridReady` (with its deferred mount) and after the toggle's `onchange`
handler, the checked attribute equals the state. -/
theorem demons_toggle_sync (st : GridState) (c : Bool) :
    (demonsOnGridReady st).toggleChecked = some (demonsOnGridReady st).enableRowStyle
    ∧ (demonsToggleChange st c).toggleChecked = some (demonsToggleChange st c).enableRowStyle := by
  constructor
  · unfold demonsOnGridReady mountRowStyleToggleSync
    cases st.toggleChecked <;> rfl
  · unfold demonsToggleChange setRowStyle
    by_cases h : st.enableRowStyle == c
    · rw [if_pos]
      · simp only [beq_iff_eq] at h
        simp [h]
      · simpa using h
    · rw [if_neg (by simpa using h)]
      unfold applyColDefsUpdate
      by_cases ha : st.hasGridApi <;> simp [ha]

/-! ## The claims -/

/-- C1 (counterexample): the difficulty comparator is NOT case-insensitive.
With exact case, "Medium Demon" ranks above "Easy Demon" (comparator is
positive), but the case-variant "medium demon" compares below "Easy Demon"
(comparator is negative), because `indexOf` does not recognize it and
yields `-1`. -/
theorem difficultyComparator_case_sensitive_cex :
    difficultyComparator "medium demon" "Easy Demon" < 0
    ∧ 0 < difficultyComparator "Medium Demon" "Easy Demon" := by decide

/-- C1 (amended): for difficulty values written exactly as in the fixed
5-value vocabulary, the comparator orders them consistently with the rank
table — it is negative exactly when the left value's rank is lower, and
zero exactly for equal values.  (Case variants are not recognized; they
rank `-1`, see the unrecognized-value theorem.) -/
theorem difficultyComparator_rank_table (a b : String)
    (ha : a ∈ difficultyOrder) (hb : b ∈ difficultyOrder) :
    (difficultyComparator a b < 0 ↔ jsIndexOf difficultyOrder a < jsIndexOf difficultyOrder b)
    ∧ (difficultyComparator a b = 0 ↔ a = b) := by
  fin_cases ha <;> fin_cases hb <;> exact ⟨by decide, by decide⟩

/-- C1 (witness): the amended rank-table consistency at the concrete pair
("Easy Demon", "Medium Demon"). -/
theorem difficultyComparator_rank_table_witness :
    (difficultyComparator "Easy Demon" "Medium Demon" < 0
      ↔ jsIndexOf difficultyOrder "Easy Demon" < jsIndexOf difficultyOrder "Medium Demon")
    ∧ (difficultyComparator "Easy Demon" "Medium Demon" = 0 ↔ "Easy Demon" = "Medium Demon") :=
  difficultyComparator_rank_table "Easy Demon" "Medium Demon" (by decide) (by decide)

/-- C2 (counterexample): "Rated" belongs to the recognized rating
vocabulary, yet a row rated "Rated" has zero active rating classes with
style mode disabled — the rating rule set carries no rule for "Rated", so
the claimed "exactly one active rating class for recognized values" fails
there. -/
theorem rated_rating_zero_classes_cex :
    "Rated" ∈ ratingOrder
    ∧ (activeClasses (some ratingClassRules)
        { difficulty := "Easy Demon", rating := "Rated", ID := 1 }).length = 0 := by decide

/-- C2 (amended): with style mode disabled (the static column
definitions), every row activates exactly one difficulty class when its
difficulty is in the 5-value vocabulary and zero otherwise, and exactly
one rating class when its rating is one of Featured, Epic, Legendary,
Mythic and zero otherwise (in particular zero for "Rated"); all other
columns activate no class; with style mode enabled every column's rule
set is cleared and zero classes are active. -/
theorem class_rules_partition (r : Row) :
    (∀ col ∈ initialColDefs,
      (col.field = "difficulty" →
        (activeClasses col.cellClassRules r).length =
          if r.difficulty ∈ difficultyOrder then 1 else 0)
      ∧ (col.field = "rating" →
        (activeClasses col.cellClassRules r).length =
          if r.rating ∈ ["Featured", "Epic", "Legendary", "Mythic"] then 1 else 0)
      ∧ (col.field ≠ "difficulty" → col.field ≠ "rating" →
          activeClasses col.cellClassRules r = []))
    ∧ (∀ col ∈ updateColumnStyles true initialColDefs,
        activeClasses col.cellClassRules r = []) := by
  constructor
  · intro col hcol
    fin_cases hcol <;>
      refine ⟨?_, ?_, ?_⟩ <;>
      intro h <;>
      first
        | exact absurd h (by decide)
        | exact absurd rfl h
        | exact activeClasses_difficulty_count r
        | exact activeClasses_rating_count r
        | (intro h2; exact absurd rfl h2)
        | (intro h2; rfl)
  · intro col hcol
    simp only [updateColumnStyles, if_pos, List.mem_map] at hcol
    obtain ⟨c, _, rfl⟩ := hcol
    rfl

/-- C3 (code bug, evaluated at the failing input): in the AppComponent
variant, mounting the toggle with `enableRowStyle = false` injects HTML
whose checkbox carries the `checked` attribute, leaving the DOM checked
(true) while the state is false; and the change listener sets the state
to the checkbox value and then calls `toggleRowStyle()`, which negates it
again, so after checking the box (checked = true) the state is false.
Both paths end with the controller state and the DOM checked attribute
unequal, violating the claimed invariant.  (The DemonsGridComponent
variant — marked in the source as the "no double-flip" rewrite — keeps
the invariant, see `demons_toggle_sync`.) -/
theorem app_toggle_desync :
    ((appMountToggle ⟨false, true, none⟩).toggleChecked = some true
      ∧ (appMountToggle ⟨false, true, none⟩).enableRowStyle = false)
    ∧ ((appRowStyleChange ⟨false, true, some true⟩ true).toggleChecked = some true
      ∧ (appRowStyleChange ⟨false, true, some true⟩ true).enableRowStyle = false) := by
  decide

/-- C4: toggling style mode on and back off, starting from the disabled
initial state, returns every column's class-rule configuration to one
extensionally equal to the original: column for column the field keys
agree and every row activates exactly the original classes; the
difficulty and rating columns regain exactly their original
class-name-to-predicate mappings, and every other column has no active
class rule (the round trip leaves them with an empty rule object where
they originally had none, which activates nothing). -/
theorem style_roundtrip :
    (List.Forall₂ (fun c c0 => c.field = c0.field ∧
        ∀ r : Row, activeClasses c.cellClassRules r = activeClasses c0.cellClassRules r)
      (setRowStyle (setRowStyle initialGridState true) false).colDefs initialColDefs)
    ∧ (∀ col ∈ (setRowStyle (setRowStyle initialGridState true) false).colDefs,
        (col.field = "difficulty" → col.cellClassRules = some difficultyClassRules)
        ∧ (col.field = "rating" → col.cellClassRules = some ratingClassRules)
        ∧ (col.field ≠ "difficulty" → col.field ≠ "rating" →
            ∀ r : Row, activeClasses col.cellClassRules r = [])) := by
  constructor
  · show List.Forall₂ _ (updateColumnStyles false (updateColumnStyles true initialColDefs))
      initialColDefs
    refine List.Forall₂.cons ⟨rfl, fun r => rfl⟩ ?_
    refine List.Forall₂.cons ⟨rfl, fun r => rfl⟩ ?_
    refine List.Forall₂.cons ⟨rfl, fun r => rfl⟩ ?_
    refine List.Forall₂.cons ⟨rfl, fun r => rfl⟩ ?_
    refine List.Forall₂.cons ⟨rfl, fun r => rfl⟩ ?_
    refine List.Forall₂.cons ⟨rfl, fun r => rfl⟩ ?_
    refine List.Forall₂.cons ⟨rfl, fun r => rfl⟩ ?_
    refine List.Forall₂.cons ⟨rfl, fun r => rfl⟩ ?_
    refine List.Forall₂.cons ⟨rfl, fun r => rfl⟩ ?_
    refine List.Forall₂.cons ⟨rfl, fun r => rfl⟩ ?_
    refine List.Forall₂.cons ⟨rfl, fun r => rfl⟩ ?_
    refine List.Forall₂.cons ⟨rfl, fun r => rfl⟩ ?_
    refine List.Forall₂.cons ⟨rfl, fun r => rfl⟩ ?_
    exact List.Forall₂.nil
  · intro col hcol
    fin_cases hcol <;>
      refine ⟨?_, ?_, ?_⟩ <;>
      intro h <;>
      first
        | exact absurd h (by decide)
        | exact absurd rfl h
        | (intro h2; exact absurd rfl h2)
        | (intro h2 r; rfl)
        | rfl

/-- C5: the songID comparator returns the numeric difference for two
numeric operands (so it orders them numerically: it is negative exactly
when the left number is smaller), `-1` when only the left operand is
numeric and `1` when only the right one is (the numeric operand sorts
first), and falls back to lexical string comparison when neither is
numeric; concretely, 5 sorts before "abc" and "abc" before "xyz".  It is
a total function — no input makes it throw. -/
theorem songID_comparator_spec (a b : SongVal) :
    (a.isNumeric = true → b.isNumeric = true →
      songIDComparator a b = a.toNumber - b.toNumber
      ∧ (songIDComparator a b < 0 ↔ a.toNumber < b.toNumber))
    ∧ (a.isNumeric = true → b.isNumeric = false → songIDComparator a b = -1)
    ∧ (a.isNumeric = false → b.isNumeric = true → songIDComparator a b = 1)
    ∧ (a.isNumeric = false → b.isNumeric = false →
        songIDComparator a b = localeCompare a.toJsString b.toJsString)
    ∧ songIDComparator (SongVal.num 5) (SongVal.str "abc") = -1
    ∧ songIDComparator (SongVal.str "abc") (SongVal.str "xyz") = localeCompare "abc" "xyz"
    ∧ localeCompare "abc" "xyz" < 0 := by
  refine ⟨?_, ?_, ?_, ?_, by decide, by decide, by decide⟩
  · intro ha hb
    constructor
    · simp [songIDComparator, ha, hb]
    · simp [songIDComparator, ha, hb]
  · intro ha hb; simp [songIDComparator, ha, hb]
  · intro ha hb; simp [songIDComparator, ha, hb]
  · intro ha hb; simp [songIDComparator, ha, hb]

/-- C6: when the fetch completes with an error, the row collection is
left exactly as it was — `rawData` and `rowData` unchanged (empty if they
were empty) — and exactly one error report is appended to the log; the
handler is a total function, so no exception escapes to the caller. -/
theorem fetch_error_frame (st : FetchState) (e : String) :
    (fetchComplete st (Except.error e)).rawData = st.rawData
    ∧ (fetchComplete st (Except.error e)).rowData = st.rowData
    ∧ (fetchComplete st (Except.error e)).errorLog
        = st.errorLog ++ ["Error loading demons.json: " ++ e]
    ∧ (fetchComplete st (Except.error e)).errorLog.length = st.errorLog.length + 1 := by
  refine ⟨rfl, rfl, rfl, ?_⟩
  simp [fetchComplete]

/-- C7: formatTime decomposes the seconds exactly into hours, minutes and
seconds, renders hours only when non-zero (then minutes and seconds always
follow), else minutes only when non-zero (then seconds follow), else just
the seconds; in particular formatTime 0 = "0s", formatTime 65 = "1m 5s"
and formatTime 3661 = "1h 1m 1s". -/
theorem formatTime_spec (n : Nat) :
    (n / 3600) * 3600 + ((n % 3600) / 60) * 60 + n % 60 = n
    ∧ (0 < n / 3600 →
        formatTime n = toString (n / 3600) ++ "h " ++ toString ((n % 3600) / 60)
          ++ "m " ++ toString (n % 60) ++ "s")
    ∧ (n / 3600 = 0 → 0 < (n % 3600) / 60 →
        formatTime n = toString ((n % 3600) / 60) ++ "m " ++ toString (n % 60) ++ "s")
    ∧ (n / 3600 = 0 → (n % 3600) / 60 = 0 →
        formatTime n = toString (n % 60) ++ "s")
    ∧ formatTime 0 = "0s" ∧ formatTime 65 = "1m 5s" ∧ formatTime 3661 = "1h 1m 1s" := by
  refine ⟨by omega, ?_, ?_, ?_, by decide, by decide, by decide⟩
  · intro h; simp [formatTime, h]
  · intro h1 h2; simp [formatTime, h1, h2]
  · intro h1 h2; simp [formatTime, h1, h2]

/-- C8: calling setRowStyle with the current flag is a complete no-op —
the returned state (mode, column rules, command trace, toggle) is the
input state; with the opposite flag the mode is updated, the column rules
are rewritten (all cleared when enabling; difficulty/rating restored when
disabling), and the new column definitions are pushed to the grid before
the row redraw is requested (no grid calls happen without an API
handle). -/
theorem setRowStyle_spec (st : GridState) (flag : Bool) :
    (flag = st.enableRowStyle → setRowStyle st flag = st)
    ∧ (flag ≠ st.enableRowStyle →
        (setRowStyle st flag).enableRowStyle = flag
        ∧ (setRowStyle st flag).colDefs = updateColumnStyles flag st.colDefs
        ∧ (setRowStyle st flag).toggleChecked = st.toggleChecked
        ∧ (flag = true → ∀ col ∈ (setRowStyle st flag).colDefs,
            col.cellClassRules = some [])
        ∧ (flag = false → ∀ col ∈ (setRowStyle st flag).colDefs,
            (col.field = "difficulty" → col.cellClassRules = some difficultyClassRules)
            ∧ (col.field = "rating" → col.cellClassRules = some ratingClassRules))
        ∧ (st.hasGridApi = true →
            (setRowStyle st flag).gridCommands = st.gridCommands ++
              [GridCmd.applyColDefs (updateColumnStyles flag st.colDefs), GridCmd.redrawRows])
        ∧ (st.hasGridApi = false →
            (setRowStyle st flag).gridCommands = st.gridCommands)) := by
  constructor
  · intro h
    unfold setRowStyle
    rw [if_pos (by simp [h])]
  · intro h
    have hg : (st.enableRowStyle == flag) = false := by
      simp only [beq_eq_false_iff_ne, ne_eq]
      exact fun hc => h hc.symm
    refine ⟨?_, ?_, ?_, ?_, ?_, ?_, ?_⟩
    · simp [setRowStyle, hg, applyColDefsUpdate]
      by_cases ha : st.hasGridApi <;> simp [ha]
    · simp [setRowStyle, hg, applyColDefsUpdate]
      by_cases ha : st.hasGridApi <;> simp [ha]
    · simp [setRowStyle, hg, applyColDefsUpdate]
      by_cases ha : st.hasGridApi <;> simp [ha]
    · rintro rfl col hcol
      simp only [setRowStyle, hg, Bool.false_eq_true, if_false, applyColDefsUpdate] at hcol
      by_cases ha : st.hasGridApi <;>
        simp only [ha, if_pos, if_false, Bool.false_eq_true] at hcol <;>
        · simp only [updateColumnStyles, List.mem_map, if_pos] at hcol
          obtain ⟨c, _, rfl⟩ := hcol
          rfl
    · rintro rfl col hcol
      simp only [setRowStyle, hg, Bool.false_eq_true, if_false, applyColDefsUpdate] at hcol
      by_cases ha : st.hasGridApi <;>
        simp only [ha, if_pos, if_false, Bool.false_eq_true] at hcol <;>
        · simp only [updateColumnStyles, List.mem_map, Bool.false_eq_true, if_false] at hcol
          obtain ⟨c, _, rfl⟩ := hcol
          constructor
          · intro hf
            by_cases h1 : c.field == "difficulty" <;> by_cases h2 : c.field == "rating" <;>
              simp_all
          · intro hf
            by_cases h1 : c.field == "difficulty" <;> by_cases h2 : c.field == "rating" <;>
              simp_all
    · intro ha
      simp [setRowStyle, hg, applyColDefsUpdate, ha]
    · intro ha
      simp [setRowStyle, hg, applyColDefsUpdate, ha]

/-- C9: iterating the pagination augmenter any positive number of times
leaves exactly the element counts of a single invocation (the injections
are guarded by element-id lookups, so a second pass finds every id and
creates nothing), and a single invocation creates at most one element of
any id that was absent — in particular at most one credit label and one
of each toggle control. -/
theorem pagination_augmenter_counts (d : Doc) (i : String) (n : Nat) (hn : 1 ≤ n) :
    (updateCustomPaginationText^[n] d).elems.count i
      = (updateCustomPaginationText d).elems.count i
    ∧ (d.elems.count i = 0 → (updateCustomPaginationText d).elems.count i ≤ 1) := by
  constructor
  · cases n with
    | zero => omega
    | succ m =>
      rw [Function.iterate_succ_apply, Function.iterate_fixed (augment_idem d)]
  · intro h0
    unfold updateCustomPaginationText
    by_cases hp : d.hasPaginationPanel
    · rw [if_pos hp]
      have l1 := count_addIfAbsent_le d "customPaginationText" ["customPaginationText"] i
      have l2 := count_addIfAbsent_le
        (addIfAbsent d "customPaginationText" ["customPaginationText"])
        "rowStyleToggle" ["toggleContainer", "rowStyleToggle"] i
      have l3 := count_addIfAbsent_le
        (addIfAbsent (addIfAbsent d "customPaginationText" ["customPaginationText"])
          "rowStyleToggle" ["toggleContainer", "rowStyleToggle"])
        "datasetToggle" ["datasetSwitch", "datasetToggle"] i
      have htot : (["customPaginationText"] : List String).count i
          + (["toggleContainer", "rowStyleToggle"] : List String).count i
          + (["datasetSwitch", "datasetToggle"] : List String).count i ≤ 1 := by
        by_cases e1 : i = "customPaginationText" <;>
        by_cases e2 : i = "toggleContainer" <;>
        by_cases e3 : i = "rowStyleToggle" <;>
        by_cases e4 : i = "datasetSwitch" <;>
        by_cases e5 : i = "datasetToggle" <;>
        simp_all [List.count_cons]
      omega
    · rw [if_neg hp, h0]
      omega

/-- C9 (witness): two invocations on the empty document with a pagination
panel leave the same count of row-style toggles as one invocation. -/
theorem pagination_augmenter_counts_witness :
    (updateCustomPaginationText^[2] ⟨true, []⟩).elems.count "rowStyleToggle"
      = (updateCustomPaginationText ⟨true, []⟩).elems.count "rowStyleToggle" :=
  (pagination_augmenter_counts ⟨true, []⟩ "rowStyleToggle" 2 (by decide)).1

/-- C10: a value outside the fixed vocabulary receives rank `-1` from the
difficulty and rating comparators, therefore compares strictly below every
recognized value (unrecognized values sort first in ascending order), and
two unrecognized values compare as equal (comparator zero). -/
theorem unrecognized_rank_cmp (a b : String) :
    (a ∉ difficultyOrder →
      jsIndexOf difficultyOrder a = -1
      ∧ (b ∈ difficultyOrder → difficultyComparator a b < 0)
      ∧ (b ∉ difficultyOrder → difficultyComparator a b = 0))
    ∧ (a ∉ ratingOrder →
      jsIndexOf ratingOrder a = -1
      ∧ (b ∈ ratingOrder → ratingComparator a b < 0)
      ∧ (b ∉ ratingOrder → ratingComparator a b = 0)) := by
  constructor
  · intro ha
    refine ⟨jsIndexOf_of_not_mem _ _ ha, ?_, ?_⟩
    · intro hb
      have h1 := jsIndexOf_nonneg_of_mem difficultyOrder b hb
      unfold difficultyComparator
      rw [jsIndexOf_of_not_mem _ _ ha]
      omega
    · intro hb
      unfold difficultyComparator
      rw [jsIndexOf_of_not_mem _ _ ha, jsIndexOf_of_not_mem _ _ hb]
      decide
  · intro ha
    refine ⟨jsIndexOf_of_not_mem _ _ ha, ?_, ?_⟩
    · intro hb
      have h1 := jsIndexOf_nonneg_of_mem ratingOrder b hb
      unfold ratingComparator
      rw [jsIndexOf_of_not_mem _ _ ha]
      omega
    · intro hb
      unfold ratingComparator
      rw [jsIndexOf_of_not_mem _ _ ha, jsIndexOf_of_not_mem _ _ hb]
      decide

end Pemon
